import Mathlib

/-!
Verification of the Meeting Notes application (a Python/PyQt desktop tool
that transcribes audio via an external executable and generates meeting
notes via a local LLM HTTP service).

This file shallowly embeds the pure decision logic of the source modules
(`src/utils/helpers.py`, `src/config/settings.py`,
`src/models/transcriber.py`, `src/core/note_generator.py`,
`src/workers/processing_worker.py`, `src/workers/transcription_worker.py`,
`src/ui/main_window.py`) in Lean.  External effects (filesystem reads and
writes, subprocess execution, HTTP requests) are represented by explicit
environment records carrying each effect's outcome; control flow,
exception handling and the emitted event traces are translated directly
from the Python code.
-/

set_option maxRecDepth 20000

namespace MeetingNotes

/-! ## Python string/path primitives used by the source -/

/-- The final path component of `p`, i.e. Python `PurePath(p).name` for a
POSIX-style path: the characters after the last `/`. -/
def pathName (p : String) : List Char :=
  ((p.data.reverse.takeWhile (fun c => c ≠ '/')).reverse)

/-- Python `PurePath(p).suffix`: the extension of the final component,
including the leading dot.  pathlib returns `""` when the last dot of the
name is its first character (hidden files) or its last character. -/
def pySuffix (p : String) : String :=
  let name := pathName p
  let rev := name.reverse
  match rev.findIdx? (fun c => c = '.') with
  | none => ""
  | some j =>
    if j = 0 then ""                 -- the dot is the last character of the name
    else if j = name.length - 1 then ""  -- the dot is the first character of the name
    else String.mk ((rev.take (j + 1)).reverse)

/-- Python `str.lower()`, restricted to per-character lowering (the source
only lowers ASCII file extensions). -/
def pyLower (s : String) : String :=
  String.mk (s.data.map Char.toLower)

/-! ## `src/utils/helpers.py` : `validate_audio_file` -/

/-- The `valid_extensions` set from `validate_audio_file`. -/
def valid_extensions : List String :=
  [".mp3", ".wav", ".m4a", ".flac", ".aac", ".ogg"]

/-- `validate_audio_file(filepath)` from `src/utils/helpers.py`:
`Path(filepath).suffix.lower() in valid_extensions`. -/
def validate_audio_file (filepath : String) : Bool :=
  let file_ext := pyLower (pySuffix filepath)
  valid_extensions.contains file_ext

/-! ## Auxiliary lemmas about the path primitives -/

theorem pathName_of_no_slash (p : String) (h : ∀ c ∈ p.data, c ≠ '/') :
    pathName p = p.data := by
  unfold pathName
  rw [List.takeWhile_eq_self_iff.mpr, List.reverse_reverse]
  intro c hc
  simpa using h c (by simpa using hc)

/-- `Path.with_suffix`-style decomposition: for a path of the form
`stem ++ "." ++ ext` where the stem is nonempty and slash-free and the
extension is nonempty, dot-free and slash-free, pathlib's `suffix` is
exactly `"." ++ ext`. -/
theorem pySuffix_append (s e : String)
    (hs : s.data ≠ []) (hsSlash : ∀ c ∈ s.data, c ≠ '/')
    (he : e.data ≠ []) (heDot : ∀ c ∈ e.data, c ≠ '.')
    (heSlash : ∀ c ∈ e.data, c ≠ '/') :
    pySuffix (s ++ "." ++ e) = "." ++ e := by
  have hdata : (s ++ "." ++ e).data = s.data ++ '.' :: e.data := by
    simp [String.data_append]
  have hname : pathName (s ++ "." ++ e) = s.data ++ '.' :: e.data := by
    rw [pathName_of_no_slash, hdata]
    intro c hc
    rw [hdata] at hc
    rcases List.mem_append.mp hc with h1 | h2
    · exact hsSlash c h1
    · rcases List.mem_cons.mp h2 with h3 | h4
      · simp [h3]
      · exact heSlash c h4
  have hfind : ((s.data ++ '.' :: e.data).reverse).findIdx? (fun c => c = '.')
      = some e.data.length := by
    rw [List.reverse_append, List.reverse_cons, List.append_assoc,
      List.findIdx?_append]
    have h1 : (e.data.reverse).findIdx? (fun c => c = '.') = none := by
      rw [List.findIdx?_eq_none_iff]
      intro c hc
      simpa using heDot c (by simpa using hc)
    have h2 : (['.'] ++ s.data.reverse).findIdx? (fun c => c = '.')
        = some 0 := by
      rw [List.findIdx?_append]
      simp [List.findIdx?]
    rw [h1, h2]
    simp
  have hlen : e.data.length ≠ 0 := by
    intro h0
    exact he (List.length_eq_zero.mp h0)
  have hslen : s.data.length ≠ 0 := by
    intro h0
    exact hs (List.length_eq_zero.mp h0)
  have hlen2 : e.data.length ≠ (s.data ++ '.' :: e.data).length - 1 := by
    simp only [List.length_append, List.length_cons]
    omega
  have htake : ((s.data ++ '.' :: e.data).reverse).take (e.data.length + 1)
      = e.data.reverse ++ ['.'] := by
    rw [List.reverse_append, List.reverse_cons, List.append_assoc,
      List.take_append_eq_append_take]
    have h1 : e.data.length + 1 - e.data.reverse.length = 1 := by
      simp
    rw [h1, List.take_of_length_le (by simp)]
    simp
  simp only [pySuffix]
  rw [hname, hfind]
  simp only [hlen, hlen2, if_false]
  apply String.ext
  rw [htake]
  simp [String.data_append]

/-- **C9.** For every file path of the form `stem.ext` (nonempty slash-free
stem, nonempty dot-free slash-free extension), `validate_audio_file`
returns `true` exactly when the lowercased extension is one of
`.mp3, .wav, .m4a, .flac, .aac, .ogg`; in particular any other extension
(such as `.txt`) yields `false`.  The first conjunct records the general
rule for arbitrary paths: the result is membership of the lowercased
pathlib suffix in the allow-list. -/
theorem validate_audio_file_extension_allowlist :
    (∀ p : String,
      validate_audio_file p = valid_extensions.contains (pyLower (pySuffix p)))
    ∧ (∀ s e : String, s.data ≠ [] → (∀ c ∈ s.data, c ≠ '/') →
        e.data ≠ [] → (∀ c ∈ e.data, c ≠ '.') → (∀ c ∈ e.data, c ≠ '/') →
        validate_audio_file (s ++ "." ++ e)
          = valid_extensions.contains (pyLower ("." ++ e))) := by
  constructor
  · intro p
    rfl
  · intro s e hs hsSlash he heDot heSlash
    unfold validate_audio_file
    rw [pySuffix_append s e hs hsSlash he heDot heSlash]

/-- Witness for C9: `"meeting" ++ "." ++ "MP3"` is accepted (its lowered
extension `.mp3` is in the allow-list) and `"notes" ++ "." ++ "txt"` is
rejected. -/
theorem validate_audio_file_extension_allowlist_witness :
    (validate_audio_file ("meeting" ++ "." ++ "MP3")
      = valid_extensions.contains (pyLower ("." ++ "MP3")))
    ∧ validate_audio_file ("meeting" ++ "." ++ "MP3") = true
    ∧ (validate_audio_file ("notes" ++ "." ++ "txt")
      = valid_extensions.contains (pyLower ("." ++ "txt")))
    ∧ validate_audio_file ("notes" ++ "." ++ "txt") = false :=
  ⟨validate_audio_file_extension_allowlist.2 "meeting" "MP3"
      (by decide) (by decide) (by decide) (by decide) (by decide),
    by decide,
    validate_audio_file_extension_allowlist.2 "notes" "txt"
      (by decide) (by decide) (by decide) (by decide) (by decide),
    by decide⟩

/-! ## String disequality helpers

Used to show that the distinct error messages of the source never
coincide, even when they interpolate an arbitrary directory name. -/

theorem string_ne_of_getElem_ne (s t : String) (i : Nat)
    (h : s.data[i]? ≠ t.data[i]?) : s ≠ t :=
  fun he => h (congrArg (fun u => u.data[i]?) he)

theorem string_append_getElem_left (A rest : String) (i : Nat)
    (h : i < A.data.length) : (A ++ rest).data[i]? = A.data[i]? := by
  rw [String.data_append]
  exact List.getElem?_append_left h

theorem string_append3_getElem_left (A b c : String) (i : Nat)
    (h : i < A.data.length) : (A ++ b ++ c).data[i]? = A.data[i]? := by
  have h2 : i < (A ++ b).data.length := by
    simp only [String.data_append, List.length_append]
    omega
  rw [string_append_getElem_left (A ++ b) c i h2,
    string_append_getElem_left A b i h]

/-! ## `src/config/settings.py` -/

/-- Truthiness of a Python `Optional[str]`: `None` and `""` are falsy. -/
def pyTruthy : Option String → Bool
  | none => false
  | some s => !s.data.isEmpty

/-- The `AppConfig` dataclass from `src/config/settings.py`. -/
structure AppConfig where
  input_dir : String
  output_dir : String
  main_exe_path : String
  whisper_dll_path : String
  model_path : Option String
  system_prompt_paths : List String

/-- Error message appended when `Whisper.exe` is missing (`validate`, first check). -/
def exeMissingMsg : String :=
  "ERROR: Whisper.exe not found in current directory. Please download Whisper.cpp binaries from https://github.com/Const-me/Whisper and place Whisper.exe in the same directory as main.py"

/-- Error message appended when `Whisper.dll` is missing (`validate`, second check). -/
def dllMissingMsg : String :=
  "ERROR: Whisper.dll not found in current directory. Please download Whisper.cpp binaries from https://github.com/Const-me/Whisper and place Whisper.dll in the same directory as main.py"

/-- Error message appended when no `.bin` model file was found (`validate`, third check). -/
def modelMissingMsg (input_dir : String) : String :=
  "ERROR: No .bin model file found in " ++ input_dir ++ ". Please download a model file from https://huggingface.co/ggerganov/whisper.cpp/tree/main and place it in the input folder. You can have multiple .bin files in the input folder and select from the dropdown."

/-- Error message appended when no system prompt file was found (`validate`, fourth check). -/
def promptMissingMsg (input_dir : String) : String :=
  "ERROR: No System_Prompt*.txt file found in " ++ input_dir ++ ". Please create a text file with your base system prompt for meeting notes generation in the input folder. You can have multiple system prompt files in the input folder and select from the dropdown."

/-- The general guidance block appended at the end whenever `errors` is nonempty. -/
def infoLines : List String :=
  ["",
   "INFO: For more information, please read the README.md file in the project directory.",
   "INFO: You can download .bin model files from https://huggingface.co/ggerganov/whisper.cpp/tree/main",
   "INFO: Create a text file with your system prompt in the input folder (e.g., System_Prompt_Meeting_Notes.txt)"]

namespace ConfigManager

/-- `ConfigManager.validate` from `src/config/settings.py`.  `fsExists`
models `os.path.exists`.  The four checks run in order, each appending its
own message when its condition fails; if any error was collected the
guidance block is appended. -/
def validate (fsExists : String → Bool) (cfg : AppConfig) : List String :=
  let errors :=
    (if !fsExists cfg.main_exe_path then [exeMissingMsg] else [])
    ++ (if !fsExists cfg.whisper_dll_path then [dllMissingMsg] else [])
    ++ (if !pyTruthy cfg.model_path then [modelMissingMsg cfg.input_dir] else [])
    ++ (if cfg.system_prompt_paths.isEmpty then [promptMissingMsg cfg.input_dir] else [])
  if errors.isEmpty then errors else errors ++ infoLines

end ConfigManager

theorem modelMissingMsg_getElem (d : String) (i : Nat)
    (h : i < ("ERROR: No .bin model file found in ").data.length) :
    (modelMissingMsg d).data[i]?
      = ("ERROR: No .bin model file found in ").data[i]? := by
  simp only [modelMissingMsg]
  exact string_append3_getElem_left _ _ _ i h

theorem promptMissingMsg_getElem (d : String) (i : Nat)
    (h : i < ("ERROR: No System_Prompt*.txt file found in ").data.length) :
    (promptMissingMsg d).data[i]?
      = ("ERROR: No System_Prompt*.txt file found in ").data[i]? := by
  simp only [promptMissingMsg]
  exact string_append3_getElem_left _ _ _ i h

theorem exe_ne_model (d : String) : exeMissingMsg ≠ modelMissingMsg d := by
  apply string_ne_of_getElem_ne _ _ 7
  rw [modelMissingMsg_getElem d 7 (by decide)]
  decide

theorem exe_ne_prompt (d : String) : exeMissingMsg ≠ promptMissingMsg d := by
  apply string_ne_of_getElem_ne _ _ 7
  rw [promptMissingMsg_getElem d 7 (by decide)]
  decide

theorem dll_ne_model (d : String) : dllMissingMsg ≠ modelMissingMsg d := by
  apply string_ne_of_getElem_ne _ _ 7
  rw [modelMissingMsg_getElem d 7 (by decide)]
  decide

theorem dll_ne_prompt (d : String) : dllMissingMsg ≠ promptMissingMsg d := by
  apply string_ne_of_getElem_ne _ _ 7
  rw [promptMissingMsg_getElem d 7 (by decide)]
  decide

theorem model_ne_prompt (d d' : String) :
    modelMissingMsg d ≠ promptMissingMsg d' := by
  apply string_ne_of_getElem_ne _ _ 10
  rw [modelMissingMsg_getElem d 10 (by decide),
    promptMissingMsg_getElem d' 10 (by decide)]
  decide

theorem notin_info_of_head_E (s : String) (h0 : s.data[0]? = some 'E') :
    s ∉ infoLines := by
  intro hmem
  simp only [infoLines, List.mem_cons, List.not_mem_nil, or_false] at hmem
  rcases hmem with h | h | h | h <;>
  · rw [h] at h0
    exact absurd h0 (by decide)

theorem model_notin_info (d : String) : modelMissingMsg d ∉ infoLines :=
  notin_info_of_head_E _ (by rw [modelMissingMsg_getElem d 0 (by decide)]; decide)

theorem prompt_notin_info (d : String) : promptMissingMsg d ∉ infoLines :=
  notin_info_of_head_E _ (by rw [promptMissingMsg_getElem d 0 (by decide)]; decide)

theorem exe_ne_dll : exeMissingMsg ≠ dllMissingMsg := by decide

theorem exe_notin_info : exeMissingMsg ∉ infoLines := by decide

theorem dll_notin_info : dllMissingMsg ∉ infoLines := by decide

theorem exe_mem_validate (fs : String → Bool) (cfg : AppConfig) :
    exeMissingMsg ∈ ConfigManager.validate fs cfg
      ↔ fs cfg.main_exe_path = false := by
  by_cases h1 : fs cfg.main_exe_path <;>
  by_cases h2 : fs cfg.whisper_dll_path <;>
  by_cases h3 : pyTruthy cfg.model_path <;>
  by_cases h4 : cfg.system_prompt_paths.isEmpty <;>
  simp [ConfigManager.validate, h1, h2, h3, h4, exe_ne_dll,
    exe_ne_model cfg.input_dir, exe_ne_prompt cfg.input_dir, exe_notin_info]

theorem dll_mem_validate (fs : String → Bool) (cfg : AppConfig) :
    dllMissingMsg ∈ ConfigManager.validate fs cfg
      ↔ fs cfg.whisper_dll_path = false := by
  by_cases h1 : fs cfg.main_exe_path <;>
  by_cases h2 : fs cfg.whisper_dll_path <;>
  by_cases h3 : pyTruthy cfg.model_path <;>
  by_cases h4 : cfg.system_prompt_paths.isEmpty <;>
  simp [ConfigManager.validate, h1, h2, h3, h4, Ne.symm exe_ne_dll,
    dll_ne_model cfg.input_dir, dll_ne_prompt cfg.input_dir, dll_notin_info]

theorem model_mem_validate (fs : String → Bool) (cfg : AppConfig) :
    modelMissingMsg cfg.input_dir ∈ ConfigManager.validate fs cfg
      ↔ pyTruthy cfg.model_path = false := by
  by_cases h1 : fs cfg.main_exe_path <;>
  by_cases h2 : fs cfg.whisper_dll_path <;>
  by_cases h3 : pyTruthy cfg.model_path <;>
  by_cases h4 : cfg.system_prompt_paths.isEmpty <;>
  simp [ConfigManager.validate, h1, h2, h3, h4,
    Ne.symm (exe_ne_model cfg.input_dir), Ne.symm (dll_ne_model cfg.input_dir),
    model_ne_prompt cfg.input_dir cfg.input_dir, model_notin_info cfg.input_dir]

theorem prompt_mem_validate (fs : String → Bool) (cfg : AppConfig) :
    promptMissingMsg cfg.input_dir ∈ ConfigManager.validate fs cfg
      ↔ cfg.system_prompt_paths = [] := by
  by_cases h1 : fs cfg.main_exe_path <;>
  by_cases h2 : fs cfg.whisper_dll_path <;>
  by_cases h3 : pyTruthy cfg.model_path <;>
  by_cases h4 : cfg.system_prompt_paths.isEmpty <;>
  simp_all [ConfigManager.validate, List.isEmpty_iff,
    Ne.symm (exe_ne_prompt cfg.input_dir), Ne.symm (dll_ne_prompt cfg.input_dir),
    Ne.symm (model_ne_prompt cfg.input_dir cfg.input_dir),
    prompt_notin_info cfg.input_dir]

theorem validate_empty_iff (fs : String → Bool) (cfg : AppConfig) :
    ConfigManager.validate fs cfg = []
      ↔ (fs cfg.main_exe_path = true ∧ fs cfg.whisper_dll_path = true
          ∧ pyTruthy cfg.model_path = true ∧ cfg.system_prompt_paths ≠ []) := by
  by_cases h1 : fs cfg.main_exe_path <;>
  by_cases h2 : fs cfg.whisper_dll_path <;>
  by_cases h3 : pyTruthy cfg.model_path <;>
  by_cases h4 : cfg.system_prompt_paths.isEmpty <;>
  simp_all [ConfigManager.validate, List.isEmpty_iff]

/-- **C7.** If the executable path does not exist, `validate()` returns a
list containing the executable-missing error, and each of the other three
checks contributes its message only when its own condition fails; in full
generality each check's message is present exactly when its check fails,
and the empty list is returned exactly when all four checks pass. -/
theorem validate_exe_missing_isolated (fs : String → Bool) (cfg : AppConfig)
    (hexe : fs cfg.main_exe_path = false) :
    exeMissingMsg ∈ ConfigManager.validate fs cfg
    ∧ (fs cfg.whisper_dll_path = true
        → dllMissingMsg ∉ ConfigManager.validate fs cfg)
    ∧ (pyTruthy cfg.model_path = true
        → modelMissingMsg cfg.input_dir ∉ ConfigManager.validate fs cfg)
    ∧ (cfg.system_prompt_paths ≠ []
        → promptMissingMsg cfg.input_dir ∉ ConfigManager.validate fs cfg)
    ∧ (∀ (fs2 : String → Bool) (cfg2 : AppConfig),
        (exeMissingMsg ∈ ConfigManager.validate fs2 cfg2
          ↔ fs2 cfg2.main_exe_path = false)
        ∧ (dllMissingMsg ∈ ConfigManager.validate fs2 cfg2
          ↔ fs2 cfg2.whisper_dll_path = false)
        ∧ (modelMissingMsg cfg2.input_dir ∈ ConfigManager.validate fs2 cfg2
          ↔ pyTruthy cfg2.model_path = false)
        ∧ (promptMissingMsg cfg2.input_dir ∈ ConfigManager.validate fs2 cfg2
          ↔ cfg2.system_prompt_paths = [])
        ∧ (ConfigManager.validate fs2 cfg2 = []
          ↔ (fs2 cfg2.main_exe_path = true ∧ fs2 cfg2.whisper_dll_path = true
              ∧ pyTruthy cfg2.model_path = true
              ∧ cfg2.system_prompt_paths ≠ []))) := by
  refine ⟨(exe_mem_validate fs cfg).mpr hexe, ?_, ?_, ?_, ?_⟩
  · intro h hmem
    rw [dll_mem_validate fs cfg] at hmem
    rw [h] at hmem
    exact absurd hmem (by decide)
  · intro h hmem
    rw [model_mem_validate fs cfg] at hmem
    rw [h] at hmem
    exact absurd hmem (by decide)
  · intro h hmem
    exact h ((prompt_mem_validate fs cfg).mp hmem)
  · intro fs2 cfg2
    exact ⟨exe_mem_validate fs2 cfg2, dll_mem_validate fs2 cfg2,
      model_mem_validate fs2 cfg2, prompt_mem_validate fs2 cfg2,
      validate_empty_iff fs2 cfg2⟩

/-- Witness for C7: a configuration whose executable is missing but whose
library, model and prompts are all present yields exactly the
executable-missing error (followed by the guidance block). -/
theorem validate_exe_missing_isolated_witness :
    (exeMissingMsg ∈ ConfigManager.validate
        (fun p => p ≠ "Whisper.exe")
        ⟨"input", "output", "Whisper.exe", "Whisper.dll",
          some "input/ggml-base.en.bin", ["input/System_Prompt.txt"]⟩)
    ∧ dllMissingMsg ∉ ConfigManager.validate
        (fun p => p ≠ "Whisper.exe")
        ⟨"input", "output", "Whisper.exe", "Whisper.dll",
          some "input/ggml-base.en.bin", ["input/System_Prompt.txt"]⟩ := by
  have h := validate_exe_missing_isolated
    (fun p => p ≠ "Whisper.exe")
    ⟨"input", "output", "Whisper.exe", "Whisper.dll",
      some "input/ggml-base.en.bin", ["input/System_Prompt.txt"]⟩
    (by decide)
  exact ⟨h.1, h.2.1 (by decide)⟩

/-! ## Python exceptions

One inductive covering the `Exception` subclasses that the source can
raise or catch.  `FileNotFoundError` is a subclass of `OSError`
(= `IOError`), and `UnicodeDecodeError` is a subclass of `ValueError`;
the classification predicates below encode these subclass relations for
the `except` clauses. -/

inductive PyExc
  | fileNotFoundError (msg : String)
  | transcriptionError (msg : String)
  | noteGenerationError (msg : String)
  | unicodeDecodeError (msg : String)
  | valueError (msg : String)
  | osError (msg : String)
  | subprocessError (msg : String)
  | connectionError (msg : String)
  | timeoutError (msg : String)
  | httpError (msg : String)
  | requestException (msg : String)
  | jsonDecodeError (msg : String)
  | keyError (msg : String)
  | attributeError (msg : String)
  | otherError (msg : String)
deriving DecidableEq

instance {ε α : Type} [DecidableEq ε] [DecidableEq α] :
    DecidableEq (Except ε α)
  | .error a, .error b =>
    if h : a = b then .isTrue (by rw [h])
    else .isFalse (fun hc => h (Except.error.inj hc))
  | .error _, .ok _ => .isFalse (fun hc => Except.noConfusion hc)
  | .ok _, .error _ => .isFalse (fun hc => Except.noConfusion hc)
  | .ok a, .ok b =>
    if h : a = b then .isTrue (by rw [h])
    else .isFalse (fun hc => h (Except.ok.inj hc))

/-- Python `str(e)`: the message carried by the exception. -/
def PyExc.str : PyExc → String
  | .fileNotFoundError m => m
  | .transcriptionError m => m
  | .noteGenerationError m => m
  | .unicodeDecodeError m => m
  | .valueError m => m
  | .osError m => m
  | .subprocessError m => m
  | .connectionError m => m
  | .timeoutError m => m
  | .httpError m => m
  | .requestException m => m
  | .jsonDecodeError m => m
  | .keyError m => m
  | .attributeError m => m
  | .otherError m => m

/-- `isinstance(e, OSError)` (equivalently `IOError`):
`FileNotFoundError` is an `OSError` subclass, and so is the whole
`requests.exceptions.RequestException` hierarchy (it subclasses
`IOError`). -/
def PyExc.isOSError : PyExc → Bool
  | .osError _ => true
  | .fileNotFoundError _ => true
  | .connectionError _ => true
  | .timeoutError _ => true
  | .httpError _ => true
  | .requestException _ => true
  | _ => false

/-- `isinstance(e, ValueError)`: `UnicodeDecodeError` and
`json.JSONDecodeError` are `ValueError` subclasses. -/
def PyExc.isValueError : PyExc → Bool
  | .valueError _ => true
  | .unicodeDecodeError _ => true
  | .jsonDecodeError _ => true
  | _ => false

/-! ## `ConfigManager.get_system_prompt` (`src/config/settings.py`)

The filesystem interaction is an explicit environment: `fileExists` is
the result of `os.path.exists(file_path)` and `readResult` the outcome of
`open(file_path, encoding="utf-8").read()` (which can fail with an
`OSError`, or with a `UnicodeDecodeError` when the file is not valid
UTF-8).  The source catches only `(IOError, OSError)` — any other
exception escapes. -/

/-- `ConfigManager.get_system_prompt` from `src/config/settings.py`:
returns `None` when the path does not exist; reads the file, returning
`None` (after printing a log line) when the read raises an
`IOError`/`OSError`; re-raises any other exception. -/
def ConfigManager.get_system_prompt (fileExists : Bool)
    (readResult : Except PyExc String) : Except PyExc (Option String) :=
  if !fileExists then .ok none
  else
    match readResult with
    | .ok s => .ok (some s)
    | .error e => if e.isOSError then .ok none else .error e

/-! ## Background workers (`src/workers/processing_worker.py`,
`src/workers/transcription_worker.py`)

The worker's observable behaviour is its trace of emitted Qt signals,
in emission order: `progress`, `log` and the terminal `finished`. -/

/-- The result dict `{"notes": notes, "transcript": transcript}` built by
`ProcessingWorker.run`. -/
structure JobResult where
  notes : String
  transcript : String
deriving DecidableEq

/-- The result dict `{"transcript": transcript}` built by
`TranscriptionOnlyWorker.run`. -/
structure TranscriptOnlyResult where
  transcript : String
deriving DecidableEq

/-- One emitted signal.  `ρ` is the payload type of the `finished`
signal (`None` is modelled by `Option.none`). -/
inductive Event (ρ : Type)
  | progress (value : Nat)
  | log (message : String)
  | finished (result : Option ρ)
deriving DecidableEq

/-- The payloads of the `finished` signals occurring in a trace. -/
def terminalResults {ρ : Type} (t : List (Event ρ)) : List (Option ρ) :=
  t.filterMap (fun e => match e with | .finished r => some r | _ => none)

/-- The values of the `progress` signals occurring in a trace. -/
def progressValues {ρ : Type} (t : List (Event ρ)) : List Nat :=
  t.filterMap (fun e => match e with | .progress v => some v | _ => none)

/-- Environment of one `ProcessingWorker.run` invocation: the outcomes of
its external interactions, in program order. -/
structure ProcessingEnv where
  /-- `self.system_prompt_path` -/
  system_prompt_path : String
  /-- outcome of `AudioTranscriber(main_exe_path, selected_model_path)`
  (its constructor raises `FileNotFoundError` when a path is missing) -/
  ctorResult : Except PyExc Unit
  /-- outcome of `transcriber.transcribe(selected_audio_file)` -/
  transcribeResult : Except PyExc String
  /-- `os.path.exists(system_prompt_path)` inside `get_system_prompt` -/
  promptFileExists : Bool
  /-- outcome of reading the prompt file inside `get_system_prompt` -/
  promptReadResult : Except PyExc String
  /-- outcome of `note_generator.generate_notes(...)` -/
  generateResult : Except PyExc String

/-- The events emitted by the `except` clauses of `ProcessingWorker.run`,
matched in source order: `FileNotFoundError`, `TranscriptionError`,
`NoteGenerationError`, `ValueError` (which also catches
`UnicodeDecodeError`), then the catch-all `Exception` branch.  (The
catch-all's log line also embeds `traceback.format_exc()`; the traceback
text is not modelled.)  Every branch logs one line and emits
`finished(None)`. -/
def handlerEvents (e : PyExc) : List (Event JobResult) :=
  match e with
  | .fileNotFoundError m => [.log ("File not found: " ++ m), .finished none]
  | .transcriptionError m => [.log ("Transcription error: " ++ m), .finished none]
  | .noteGenerationError m => [.log ("Note generation error: " ++ m), .finished none]
  | e =>
    if e.isValueError then [.log ("Value error: " ++ e.str), .finished none]
    else [.log ("An unexpected error occurred: " ++ e.str), .finished none]

/-- `ProcessingWorker.run` from `src/workers/processing_worker.py` as a
trace of emitted signals.  The `try` body runs transcription, the
prompt-read step (via `ConfigManager.get_system_prompt`; a `None` prompt
raises `ValueError`) and note generation; any raised exception is routed
to `handlerEvents`. -/
def ProcessingWorker.run (env : ProcessingEnv) : List (Event JobResult) :=
  [.log "Starting meeting notes generation...",
   .log "Transcribing audio...",
   .progress 10] ++
  match env.ctorResult with
  | .error e => handlerEvents e
  | .ok _ =>
    match env.transcribeResult with
    | .error e => handlerEvents e
    | .ok transcript =>
      [.log "Transcription complete.", .progress 50,
       .log "Generating notes..."] ++
      match ConfigManager.get_system_prompt env.promptFileExists
          env.promptReadResult with
      | .error e => handlerEvents e
      | .ok none =>
        handlerEvents (.valueError
          ("Could not load system prompt from " ++ env.system_prompt_path))
      | .ok (some _) =>
        match env.generateResult with
        | .error e => handlerEvents e
        | .ok notes =>
          [.log "Note generation complete.", .progress 90,
           .finished (some { notes := notes, transcript := transcript })]

/-- The terminal payload `ProcessingWorker.run` produces: the
`{notes, transcript}` record when every stage succeeds and the prompt is
present, `None` otherwise. -/
def pipelineOutcome (env : ProcessingEnv) : Option JobResult :=
  match env.ctorResult with
  | .error _ => none
  | .ok _ =>
    match env.transcribeResult with
    | .error _ => none
    | .ok transcript =>
      match ConfigManager.get_system_prompt env.promptFileExists
          env.promptReadResult with
      | .error _ => none
      | .ok none => none
      | .ok (some _) =>
        match env.generateResult with
        | .error _ => none
        | .ok notes => some { notes := notes, transcript := transcript }

/-- Environment of one `TranscriptionOnlyWorker.run` invocation. -/
structure TranscriptionOnlyEnv where
  ctorResult : Except PyExc Unit
  transcribeResult : Except PyExc String

/-- The `except` clauses of `TranscriptionOnlyWorker.run`:
`FileNotFoundError`, `TranscriptionError`, then the catch-all. -/
def transcriptionHandlerEvents (e : PyExc) : List (Event TranscriptOnlyResult) :=
  match e with
  | .fileNotFoundError m => [.log ("File not found: " ++ m), .finished none]
  | .transcriptionError m => [.log ("Transcription error: " ++ m), .finished none]
  | e => [.log ("An unexpected error occurred: " ++ e.str), .finished none]

/-- `TranscriptionOnlyWorker.run` from
`src/workers/transcription_worker.py` as a trace of emitted signals. -/
def TranscriptionOnlyWorker.run (env : TranscriptionOnlyEnv) :
    List (Event TranscriptOnlyResult) :=
  [.log "Starting audio transcription...",
   .log "Transcribing audio...",
   .progress 20] ++
  match env.ctorResult with
  | .error e => transcriptionHandlerEvents e
  | .ok _ =>
    match env.transcribeResult with
    | .error e => transcriptionHandlerEvents e
    | .ok transcript =>
      [.log "Transcription complete.", .progress 90,
       .finished (some { transcript := transcript })]

/-! ## Worker theorems -/

theorem handlerEvents_shape (e : PyExc) :
    ∃ m, handlerEvents e = [.log m, .finished none] := by
  cases e <;> exact ⟨_, rfl⟩

theorem transcriptionHandlerEvents_shape (e : PyExc) :
    ∃ m, transcriptionHandlerEvents e = [.log m, .finished none] := by
  cases e <;> exact ⟨_, rfl⟩

/-- **C1.** For every environment (hence whatever exception any stage
raises), `ProcessingWorker.run` emits exactly one terminal `finished`
signal, always as the last event of the trace; its payload is the
`{notes, transcript}` record exactly on full success and `None`
otherwise, and every failing run ends with a log line immediately
followed by `finished(None)` — no exception crosses the thread boundary
(the trace is total). -/
theorem processing_worker_one_terminal_result (env : ProcessingEnv) :
    terminalResults (ProcessingWorker.run env) = [pipelineOutcome env]
    ∧ (ProcessingWorker.run env).getLast?
        = some (.finished (pipelineOutcome env))
    ∧ (pipelineOutcome env = none
        ↔ ∃ m pre, ProcessingWorker.run env
            = pre ++ [.log m, .finished none]) := by
  have main : terminalResults (ProcessingWorker.run env) = [pipelineOutcome env]
      ∧ (ProcessingWorker.run env).getLast?
          = some (.finished (pipelineOutcome env))
      ∧ (pipelineOutcome env = none
          → ∃ m pre, ProcessingWorker.run env
              = pre ++ [.log m, .finished none]) := by
    rcases hc : env.ctorResult with e | u
    · obtain ⟨m, hm⟩ := handlerEvents_shape e
      simp only [ProcessingWorker.run, pipelineOutcome, hc, hm]
      refine ⟨by simp [terminalResults], by simp, fun _ => ⟨m, _, rfl⟩⟩
    · rcases ht : env.transcribeResult with e | transcript
      · obtain ⟨m, hm⟩ := handlerEvents_shape e
        simp only [ProcessingWorker.run, pipelineOutcome, hc, ht, hm]
        refine ⟨by simp [terminalResults], by simp, fun _ => ⟨m, _, rfl⟩⟩
      · rcases hsp : ConfigManager.get_system_prompt env.promptFileExists
            env.promptReadResult with e | osp
        · obtain ⟨m, hm⟩ := handlerEvents_shape e
          simp only [ProcessingWorker.run, pipelineOutcome, hc, ht, hsp, hm]
          refine ⟨by simp [terminalResults], by simp, ?_⟩
          intro _
          exact ⟨m, _, by rw [List.append_assoc]⟩
        · rcases osp with _ | sp
          · obtain ⟨m, hm⟩ := handlerEvents_shape
              (.valueError ("Could not load system prompt from "
                ++ env.system_prompt_path))
            simp only [ProcessingWorker.run, pipelineOutcome, hc, ht, hsp, hm]
            refine ⟨by simp [terminalResults], by simp, ?_⟩
            intro _
            exact ⟨m, _, by rw [List.append_assoc]⟩
          · rcases hg : env.generateResult with e | notes
            · obtain ⟨m, hm⟩ := handlerEvents_shape e
              simp only [ProcessingWorker.run, pipelineOutcome, hc, ht, hsp,
                hg, hm]
              refine ⟨by simp [terminalResults], by simp, ?_⟩
              intro _
              exact ⟨m, _, by rw [List.append_assoc]⟩
            · simp only [ProcessingWorker.run, pipelineOutcome, hc, ht, hsp, hg]
              exact ⟨by simp [terminalResults], by simp, by simp⟩
  refine ⟨main.1, main.2.1, main.2.2, ?_⟩
  rintro ⟨m, pre, hrun⟩
  have hlast := main.2.1
  rw [hrun, List.getLast?_append] at hlast
  simp at hlast
  exact hlast.symm

/-- Witness for C1 (the iff's hypothesis side): a run whose transcription
fails emits the failure log followed by the single terminal
`finished(None)`. -/
theorem processing_worker_one_terminal_result_witness :
    terminalResults (ProcessingWorker.run
      ⟨"input/System_Prompt.txt", .ok (), .error (.transcriptionError "boom"),
        true, .ok "prompt", .ok "notes"⟩) = [none] := by
  have h := processing_worker_one_terminal_result
    ⟨"input/System_Prompt.txt", .ok (), .error (.transcriptionError "boom"),
      true, .ok "prompt", .ok "notes"⟩
  rw [h.1]
  rfl

/-- **C8.** During a single job the progress values emitted by each
background worker are monotonically non-decreasing: `10, 50, 90` for the
full pipeline and `20, 90` for the transcription-only worker, truncated
at the point of failure. -/
theorem worker_progress_monotone :
    (∀ env : ProcessingEnv,
      (progressValues (ProcessingWorker.run env)).Chain' (· ≤ ·))
    ∧ (∀ env : TranscriptionOnlyEnv,
      (progressValues (TranscriptionOnlyWorker.run env)).Chain' (· ≤ ·)) := by
  constructor
  · intro env
    rcases hc : env.ctorResult with e | u
    · obtain ⟨m, hm⟩ := handlerEvents_shape e
      simp [ProcessingWorker.run, hc, hm, progressValues]
    · rcases ht : env.transcribeResult with e | transcript
      · obtain ⟨m, hm⟩ := handlerEvents_shape e
        simp [ProcessingWorker.run, hc, ht, hm, progressValues]
      · rcases hsp : ConfigManager.get_system_prompt env.promptFileExists
            env.promptReadResult with e | osp
        · obtain ⟨m, hm⟩ := handlerEvents_shape e
          simp [ProcessingWorker.run, hc, ht, hsp, hm, progressValues]
        · rcases osp with _ | sp
          · obtain ⟨m, hm⟩ := handlerEvents_shape
              (.valueError ("Could not load system prompt from "
                ++ env.system_prompt_path))
            simp [ProcessingWorker.run, hc, ht, hsp, hm, progressValues]
          · rcases hg : env.generateResult with e | notes
            · obtain ⟨m, hm⟩ := handlerEvents_shape e
              simp [ProcessingWorker.run, hc, ht, hsp, hg, hm, progressValues]
            · simp [ProcessingWorker.run, hc, ht, hsp, hg, progressValues]
  · intro env
    rcases hc : env.ctorResult with e | u
    · obtain ⟨m, hm⟩ := transcriptionHandlerEvents_shape e
      simp [TranscriptionOnlyWorker.run, hc, hm, progressValues]
    · rcases ht : env.transcribeResult with e | transcript
      · obtain ⟨m, hm⟩ := transcriptionHandlerEvents_shape e
        simp [TranscriptionOnlyWorker.run, hc, ht, hm, progressValues]
      · simp [TranscriptionOnlyWorker.run, hc, ht, progressValues]

/-! ## `get_system_prompt` theorems (C10) -/

/-- **C10 counterexample.** `get_system_prompt` is not exception-free for
every path: when the file exists but reading it raises an exception that
is not an `OSError` — concretely a `UnicodeDecodeError`, raised by
`f.read()` on a file that is not valid UTF-8 — the `except (IOError,
OSError)` clause does not catch it and the exception propagates to the
caller, contradicting "never raises". -/
theorem get_system_prompt_raises_on_decode_error :
    ConfigManager.get_system_prompt true
      (.error (.unicodeDecodeError "invalid start byte"))
      = .error (.unicodeDecodeError "invalid start byte") := rfl

/-- **C10 (amended).** `get_system_prompt` returns `None` when the path
does not exist or when reading fails with an `OSError`/`IOError`
(including `FileNotFoundError`), and returns the file's text on a
successful read; but an exception that is not an `OSError` (such as
`UnicodeDecodeError` on a non-UTF-8 file) propagates to the caller, so
callers must treat both `None` and a possible exception as failure
signals. -/
theorem get_system_prompt_amended (m s : String) (r : Except PyExc String) :
    ConfigManager.get_system_prompt false r = .ok none
    ∧ ConfigManager.get_system_prompt true (.error (.osError m)) = .ok none
    ∧ ConfigManager.get_system_prompt true (.error (.fileNotFoundError m))
        = .ok none
    ∧ ConfigManager.get_system_prompt true (.ok s) = .ok (some s)
    ∧ ConfigManager.get_system_prompt true (.error (.unicodeDecodeError m))
        = .error (.unicodeDecodeError m) :=
  ⟨rfl, rfl, rfl, rfl, rfl⟩

/-! ## `src/models/transcriber.py` : `AudioTranscriber.transcribe`

The subprocess run, the sidecar read and the sidecar deletion are the
external interactions; each is an environment field carrying its outcome.
The audio-existence check happens before the `try` block, so its
`FileNotFoundError` is raised directly; every exception raised inside the
`try` block is routed through the `except` clauses
(`subprocess.SubprocessError`, then `IOError`, then `Exception`).  Note
that a `TranscriptionError` raised inside the `try` body is itself caught
by the final `except Exception` clause and re-wrapped with the
"Unexpected error during transcription: " prefix. -/

/-- Python `Path(p).with_suffix(".txt")`: the path with its final
extension (as computed by `pySuffix`) replaced by `.txt` (appended when
there is none). -/
def withSuffixTxt (p : String) : String :=
  String.mk (p.data.take (p.data.length - (pySuffix p).data.length)) ++ ".txt"

/-- Environment of one `transcribe` call. -/
structure TranscribeEnv where
  /-- the `audio_file_path` argument -/
  audioPath : String
  /-- `os.path.exists(audio_file_path)` -/
  audioExists : Bool
  /-- outcome of `Popen` + `communicate`: `(returncode, stdout, stderr)`,
  or a raised exception -/
  spawnResult : Except PyExc (Int × String × String)
  /-- `output_txt_file.exists()` after the process ran -/
  sidecarExists : Bool
  /-- outcome of reading the sidecar file as UTF-8 -/
  readResult : Except PyExc String
  /-- outcome of `output_txt_file.unlink()` -/
  unlinkResult : Except PyExc Unit

/-- The `except` clauses of `transcribe`, in source order:
`subprocess.SubprocessError`, `IOError` (= `OSError` and subclasses),
then the catch-all `Exception`. -/
def handleTranscribeExc (e : PyExc) : PyExc :=
  match e with
  | .subprocessError m =>
      .transcriptionError ("Subprocess error during transcription: " ++ m)
  | e =>
      if e.isOSError then
        .transcriptionError ("I/O error during transcription: " ++ e.str)
      else
        .transcriptionError ("Unexpected error during transcription: " ++ e.str)

/-- `AudioTranscriber.transcribe` from `src/models/transcriber.py`. -/
def AudioTranscriber.transcribe (env : TranscribeEnv) : Except PyExc String :=
  if !env.audioExists then
    .error (.fileNotFoundError ("Audio file not found at " ++ env.audioPath))
  else
    let output_txt_file := withSuffixTxt env.audioPath
    let body : Except PyExc String :=
      match env.spawnResult with
      | .error e => .error e
      | .ok (returncode, _stdout, stderr) =>
        if returncode ≠ 0 then
          .error (.transcriptionError ("Error during transcription: " ++ stderr))
        else if !env.sidecarExists then
          .error (.transcriptionError
            ("Transcription output file not found: " ++ output_txt_file))
        else
          match env.readResult with
          | .error e => .error e
          | .ok transcript =>
            match env.unlinkResult with
            | .error e => .error e
            | .ok _ => .ok transcript
    match body with
    | .ok t => .ok t
    | .error e => .error (handleTranscribeExc e)

theorem string_append_left_cancel (P x y : String) (h : P ++ x = P ++ y) :
    x = y := by
  apply String.ext
  have h2 := congrArg String.data h
  simp only [String.data_append] at h2
  exact List.append_cancel_left h2

/-- The nonzero-exit message and the missing-output-file message can never
coincide, whatever the stderr text and sidecar path are. -/
theorem transcribe_messages_distinct (e2 p2 : String) :
    ("Unexpected error during transcription: "
        ++ ("Error during transcription: " ++ e2))
    ≠ ("Unexpected error during transcription: "
        ++ ("Transcription output file not found: " ++ p2)) := by
  intro h
  have h2 := string_append_left_cancel _ _ _ h
  revert h2
  apply string_ne_of_getElem_ne _ _ 0
  rw [string_append_getElem_left _ _ 0 (by decide),
    string_append_getElem_left _ _ 0 (by decide)]
  decide

/-- **C4.** `transcribe` classifies its two process-level failures
distinctly: a non-zero exit yields a `TranscriptionError` whose message
embeds the process's stderr text, a zero exit with a missing sidecar file
yields a `TranscriptionError` whose message embeds the sidecar path, and
these two messages differ for every stderr text and sidecar path.  (Both
are routed through the catch-all `except Exception` clause, which
prefixes "Unexpected error during transcription: ".) -/
theorem transcribe_failure_classification (env : TranscribeEnv)
    (rc : Int) (out err : String)
    (haudio : env.audioExists = true)
    (hspawn : env.spawnResult = .ok (rc, out, err)) :
    (rc ≠ 0 →
      AudioTranscriber.transcribe env
        = .error (.transcriptionError
            ("Unexpected error during transcription: "
              ++ ("Error during transcription: " ++ err))))
    ∧ (rc = 0 → env.sidecarExists = false →
      AudioTranscriber.transcribe env
        = .error (.transcriptionError
            ("Unexpected error during transcription: "
              ++ ("Transcription output file not found: "
                ++ withSuffixTxt env.audioPath))))
    ∧ (∀ e2 p2 : String,
        ("Unexpected error during transcription: "
            ++ ("Error during transcription: " ++ e2))
        ≠ ("Unexpected error during transcription: "
            ++ ("Transcription output file not found: " ++ p2))) := by
  refine ⟨?_, ?_, transcribe_messages_distinct⟩
  · intro hrc
    simp [AudioTranscriber.transcribe, haudio, hspawn, hrc, handleTranscribeExc,
      PyExc.isOSError, PyExc.str]
  · intro hrc hside
    simp [AudioTranscriber.transcribe, haudio, hspawn, hrc, hside,
      handleTranscribeExc, PyExc.isOSError, PyExc.str]

/-- Witness for C4: a concrete invocation exiting with code 1 and stderr
"model load failed", and one exiting 0 without a sidecar file. -/
theorem transcribe_failure_classification_witness :
    (AudioTranscriber.transcribe
        ⟨"input/rec.wav", true, .ok (1, "", "model load failed"), false,
          .ok "", .ok ()⟩
      = .error (.transcriptionError
          ("Unexpected error during transcription: "
            ++ ("Error during transcription: " ++ "model load failed"))))
    ∧ (AudioTranscriber.transcribe
        ⟨"input/rec.wav", true, .ok (0, "", ""), false, .ok "", .ok ()⟩
      = .error (.transcriptionError
          ("Unexpected error during transcription: "
            ++ ("Transcription output file not found: "
              ++ withSuffixTxt "input/rec.wav")))) := by
  constructor
  · exact (transcribe_failure_classification
      ⟨"input/rec.wav", true, .ok (1, "", "model load failed"), false,
        .ok "", .ok ()⟩ 1 "" "model load failed" rfl rfl).1 (by decide)
  · exact (transcribe_failure_classification
      ⟨"input/rec.wav", true, .ok (0, "", ""), false, .ok "", .ok ()⟩
      0 "" "" rfl rfl).2.1 rfl rfl

/-- **C3 counterexample.** When the process exits 0, the sidecar exists
and is read successfully, but the cleanup deletion (`unlink`) fails with
an `OSError`, `transcribe` does **not** return the sidecar contents: the
`unlink` call sits inside the `try` block before the `return`, its
`OSError` is caught by `except IOError` and re-raised as a
`TranscriptionError`, aborting the overall result. -/
theorem transcribe_unlink_failure_counterexample :
    AudioTranscriber.transcribe
      ⟨"input/test.wav", true, .ok (0, "", ""), true, .ok "hello transcript",
        .error (.osError "Permission denied")⟩
      = .error (.transcriptionError
          "I/O error during transcription: Permission denied")
    ∧ AudioTranscriber.transcribe
      ⟨"input/test.wav", true, .ok (0, "", ""), true, .ok "hello transcript",
        .error (.osError "Permission denied")⟩
      ≠ .ok "hello transcript" := by
  constructor
  · decide
  · decide

/-- **C3 (amended).** When the subprocess exits zero and the sidecar file
exists and is read successfully, a failure of the cleanup deletion
**does** abort the overall transcription result: an `OSError` from
`unlink` is converted to `TranscriptionError ("I/O error during
transcription: " ++ msg)` instead of returning the transcript (the
transcript is returned only when the deletion also succeeds). -/
theorem transcribe_unlink_failure_aborts (env : TranscribeEnv)
    (out err t m : String)
    (haudio : env.audioExists = true)
    (hspawn : env.spawnResult = .ok (0, out, err))
    (hside : env.sidecarExists = true)
    (hread : env.readResult = .ok t) :
    (env.unlinkResult = .error (.osError m) →
      AudioTranscriber.transcribe env
        = .error (.transcriptionError ("I/O error during transcription: " ++ m)))
    ∧ (env.unlinkResult = .ok () →
      AudioTranscriber.transcribe env = .ok t) := by
  constructor
  · intro hunlink
    simp [AudioTranscriber.transcribe, haudio, hspawn, hside, hread, hunlink,
      handleTranscribeExc, PyExc.isOSError, PyExc.str]
  · intro hunlink
    simp [AudioTranscriber.transcribe, haudio, hspawn, hside, hread, hunlink]

/-- Witness for amended C3: the counterexample environment, and the same
environment with a succeeding deletion, which does return the
transcript. -/
theorem transcribe_unlink_failure_aborts_witness :
    (AudioTranscriber.transcribe
        ⟨"input/test.wav", true, .ok (0, "", ""), true, .ok "hello transcript",
          .error (.osError "Permission denied")⟩
      = .error (.transcriptionError
          ("I/O error during transcription: " ++ "Permission denied")))
    ∧ (AudioTranscriber.transcribe
        ⟨"input/test.wav", true, .ok (0, "", ""), true, .ok "hello transcript",
          .ok ()⟩
      = .ok "hello transcript") := by
  constructor
  · exact (transcribe_unlink_failure_aborts
      ⟨"input/test.wav", true, .ok (0, "", ""), true, .ok "hello transcript",
        .error (.osError "Permission denied")⟩
      "" "" "hello transcript" "Permission denied" rfl rfl rfl rfl).1 rfl
  · exact (transcribe_unlink_failure_aborts
      ⟨"input/test.wav", true, .ok (0, "", ""), true, .ok "hello transcript",
        .ok ()⟩
      "" "" "hello transcript" "" rfl rfl rfl rfl).2 rfl

/-! ## JSON values and `json.loads` (`src/core/note_generator.py`)

Python objects decoded from JSON are represented by the `Json` type
(a Python `str` is `Json.str`, a dict is `Json.obj` with fields in
parse order, etc.).  The parser below implements `json.loads` for
standard JSON input: objects, arrays, strings with escapes, numeric
literals (kept verbatim), `true`/`false`/`null`.  Fuel bounds the
mutual recursion; the caller supplies more fuel than any input can
consume. -/

inductive Json
  | null
  | bool (b : Bool)
  | num (lit : String)
  | str (s : String)
  | arr (elems : List Json)
  | obj (fields : List (String × Json))

/-- JSON whitespace (space, tab, line feed, carriage return). -/
def jsonWs (c : Char) : Bool :=
  c = ' ' || c = '\t' || c = '\n' || c = '\r'

def hexVal (c : Char) : Option Nat :=
  if '0' ≤ c ∧ c ≤ '9' then some (c.toNat - 48)
  else if 'a' ≤ c ∧ c ≤ 'f' then some (c.toNat - 87)
  else if 'A' ≤ c ∧ c ≤ 'F' then some (c.toNat - 55)
  else none

def lbrace : Char := Char.ofNat 123

def rbrace : Char := Char.ofNat 125

/-- Characters a JSON numeric literal may contain. -/
def numChar (c : Char) : Bool :=
  c.isDigit || c = '-' || c = '+' || c = '.' || c = 'e' || c = 'E'

/-- Scan a JSON string body (after the opening quote), decoding escape
sequences, returning the decoded string and the rest of the input. -/
def parseStringBody : List Char → List Char → Option (String × List Char)
  | [], _ => none
  | c :: rest, acc =>
    if c = '"' then some (String.mk acc.reverse, rest)
    else if c = '\\' then
      match rest with
      | [] => none
      | e :: rest2 =>
        if e = '"' then parseStringBody rest2 ('"' :: acc)
        else if e = '\\' then parseStringBody rest2 ('\\' :: acc)
        else if e = '/' then parseStringBody rest2 ('/' :: acc)
        else if e = 'b' then parseStringBody rest2 (Char.ofNat 8 :: acc)
        else if e = 'f' then parseStringBody rest2 (Char.ofNat 12 :: acc)
        else if e = 'n' then parseStringBody rest2 ('\n' :: acc)
        else if e = 'r' then parseStringBody rest2 ('\r' :: acc)
        else if e = 't' then parseStringBody rest2 ('\t' :: acc)
        else if e = 'u' then
          match rest2 with
          | d1 :: d2 :: d3 :: d4 :: rest3 =>
            match hexVal d1, hexVal d2, hexVal d3, hexVal d4 with
            | some h1, some h2, some h3, some h4 =>
              parseStringBody rest3
                (Char.ofNat (((h1 * 16 + h2) * 16 + h3) * 16 + h4) :: acc)
            | _, _, _, _ => none
          | _ => none
        else none
    else parseStringBody rest (c :: acc)

mutual

def parseValue : Nat → List Char → Option (Json × List Char)
  | 0, _ => none
  | f + 1, cs0 =>
    let cs := cs0.dropWhile jsonWs
    match cs with
    | [] => none
    | c :: rest =>
      if c = '"' then
        match parseStringBody rest [] with
        | some (s, r) => some (.str s, r)
        | none => none
      else if c = lbrace then parseObjBody f (rest.dropWhile jsonWs) []
      else if c = '[' then parseArrBody f (rest.dropWhile jsonWs) []
      else if cs.take 4 = ['t', 'r', 'u', 'e'] then some (.bool true, cs.drop 4)
      else if cs.take 5 = ['f', 'a', 'l', 's', 'e'] then
        some (.bool false, cs.drop 5)
      else if cs.take 4 = ['n', 'u', 'l', 'l'] then some (.null, cs.drop 4)
      else if c.isDigit || c = '-' then
        let lit := cs.takeWhile numChar
        some (.num (String.mk lit), cs.drop lit.length)
      else none

def parseObjBody : Nat → List Char → List (String × Json) →
    Option (Json × List Char)
  | 0, _, _ => none
  | f + 1, cs, acc =>
    match cs with
    | [] => none
    | c :: rest =>
      if c = rbrace then some (.obj acc.reverse, rest)
      else if c = '"' then
        match parseStringBody rest [] with
        | none => none
        | some (key, r1) =>
          match r1.dropWhile jsonWs with
          | ':' :: r3 =>
            match parseValue f r3 with
            | none => none
            | some (v, r4) =>
              match r4.dropWhile jsonWs with
              | ',' :: r6 =>
                parseObjBody f (r6.dropWhile jsonWs) ((key, v) :: acc)
              | c2 :: r6 =>
                if c2 = rbrace then some (.obj ((key, v) :: acc).reverse, r6)
                else none
              | [] => none
          | _ => none
      else none

def parseArrBody : Nat → List Char → List Json → Option (Json × List Char)
  | 0, _, _ => none
  | f + 1, cs, acc =>
    match cs with
    | [] => none
    | c :: rest =>
      if c = ']' then some (.arr acc.reverse, rest)
      else
        match parseValue f cs with
        | none => none
        | some (v, r1) =>
          match r1.dropWhile jsonWs with
          | ',' :: r3 => parseArrBody f r3 (v :: acc)
          | ']' :: r3 => some (.arr (v :: acc).reverse, r3)
          | _ => none

end

/-- `json.loads`: parse the whole string as one JSON value (surrounding
whitespace allowed); a parse failure raises `json.JSONDecodeError`. -/
def json_loads (s : String) : Except PyExc Json :=
  match parseValue (2 * s.data.length + 4) s.data with
  | none => .error (.jsonDecodeError "Expecting value")
  | some (v, rest) =>
    if (rest.dropWhile jsonWs).isEmpty then .ok v
    else .error (.jsonDecodeError "Extra data")

/-- Python `dict.get`: for a dict built by `json.loads`, a repeated key
keeps its last occurrence. -/
def dictGet (fields : List (String × Json)) (key : String) : Option Json :=
  (fields.reverse.find? (fun p => p.1 = key)).map Prod.snd

/-! ## `NoteGenerator.generate_notes` (`src/core/note_generator.py`) -/

/-- Python `str.strip()` whitespace (space, tab, LF, CR, VT, FF). -/
def pyWsChar (c : Char) : Bool :=
  c = ' ' || c = '\t' || c = '\n' || c = '\r'
    || c = Char.ofNat 11 || c = Char.ofNat 12

/-- Python `str.strip()`. -/
def pyStrip (s : String) : String :=
  String.mk (((s.data.dropWhile pyWsChar).reverse.dropWhile pyWsChar).reverse)

/-- `response.text.strip().split('\n')[-1]`: the last line of the
stripped, newline-delimited response body (`split` always yields at
least one element, so the indexing cannot fail). -/
def lastLine (t : String) : String :=
  String.mk (((pyStrip t).data.splitOn '\n').getLastD [])

/-- The observable part of a `requests` response used by
`generate_notes`: whether `raise_for_status()` passes, the body text,
and the `HTTPError` message it would raise otherwise. -/
structure HttpResponse where
  ok : Bool
  text : String
  httpErrorMsg : String

/-- Environment of one `generate_notes` call: the outcome of
`session.post(...)` (a response, or a raised `requests` exception). -/
structure GenerateEnv where
  postResult : Except PyExc HttpResponse

/-- The `except` clauses of `generate_notes`, in source order:
`ConnectionError`, `Timeout`, `HTTPError`, `RequestException`,
`(json.JSONDecodeError, IndexError)`, `KeyError`.  Any other exception
(notably `AttributeError` when the decoded value is not a dict)
propagates unchanged. -/
def generateExcMap (e : PyExc) : PyExc :=
  match e with
  | .connectionError _ =>
      .noteGenerationError "Cannot connect to Ollama. Is it running?"
  | .timeoutError _ =>
      .noteGenerationError
        "Request to Ollama timed out. The processing might be taking too long."
  | .httpError m => .noteGenerationError ("HTTP error from Ollama API: " ++ m)
  | .requestException m =>
      .noteGenerationError ("Request error during note generation: " ++ m)
  | .jsonDecodeError m =>
      .noteGenerationError ("Error decoding Ollama response: " ++ m)
  | .keyError m =>
      .noteGenerationError ("Missing expected key in Ollama response: " ++ m)
  | e => e

/-- `NoteGenerator.generate_notes` from `src/core/note_generator.py`:
posts the payload, checks the HTTP status, parses the **last** line of
the newline-delimited body as JSON, and returns the `"response"` field
of the decoded dict, defaulting to the placeholder text `"No response
from model."` when the field is absent (`final_response.get`).  When the
decoded value is not a dict, the `.get` attribute access raises
`AttributeError`, which no clause catches. -/
def NoteGenerator.generate_notes (env : GenerateEnv) : Except PyExc Json :=
  let body : Except PyExc Json :=
    match env.postResult with
    | .error e => .error e
    | .ok resp =>
      if !resp.ok then .error (.httpError resp.httpErrorMsg)
      else
        match json_loads (lastLine resp.text) with
        | .error e => .error e
        | .ok final_response =>
          match final_response with
          | .obj fields =>
            .ok ((dictGet fields "response").getD
              (.str "No response from model."))
          | _ =>
            .error (.attributeError
              "object has no attribute 'get'")
  match body with
  | .ok v => .ok v
  | .error e => .error (generateExcMap e)

/-- **C5.** For every successful HTTP response whose stripped body's last
line decodes to a JSON object, `generate_notes` returns that object's
`"response"` field, or the placeholder `"No response from model."` when
the field is absent. -/
theorem generate_notes_last_line_response (env : GenerateEnv)
    (resp : HttpResponse) (fields : List (String × Json))
    (hpost : env.postResult = .ok resp)
    (hok : resp.ok = true)
    (hparse : json_loads (lastLine resp.text) = .ok (.obj fields)) :
    NoteGenerator.generate_notes env
      = .ok ((dictGet fields "response").getD
          (.str "No response from model.")) := by
  simp [NoteGenerator.generate_notes, hpost, hok, hparse]

/-- Witness for C5: a three-line body whose last line is
`{"response": "Summary: ..."}` yields exactly the string
`"Summary: ..."`, and a body whose last line lacks the field yields the
placeholder. -/
theorem generate_notes_last_line_response_witness :
    NoteGenerator.generate_notes
      ⟨.ok ⟨true, "\x7b\"x\": 1\x7d\n\x7b\"response\": \"Summary: ...\"\x7d",
        ""⟩⟩
      = .ok (.str "Summary: ...")
    ∧ NoteGenerator.generate_notes
      ⟨.ok ⟨true, "\x7b\"done\": true\x7d", ""⟩⟩
      = .ok (.str "No response from model.") := by
  constructor
  · rw [generate_notes_last_line_response
      ⟨.ok ⟨true, "\x7b\"x\": 1\x7d\n\x7b\"response\": \"Summary: ...\"\x7d",
        ""⟩⟩
      ⟨true, "\x7b\"x\": 1\x7d\n\x7b\"response\": \"Summary: ...\"\x7d", ""⟩
      [("response", .str "Summary: ...")] rfl rfl rfl]
    rfl
  · rw [generate_notes_last_line_response
      ⟨.ok ⟨true, "\x7b\"done\": true\x7d", ""⟩⟩
      ⟨true, "\x7b\"done\": true\x7d", ""⟩
      [("done", .bool true)] rfl rfl rfl]
    rfl

/-! ## `MainWindow.save_files` (`src/ui/main_window.py`)

Observable behaviour modelled as a trace of UI events: file-write
attempts and completions, log-area lines, and message-box dialogs.  The
PDF byte rendering (reportlab story building) is presentation and is
abstracted to the notes text; the `output` directory creation is a
side effect with no observable trace here. -/

inductive UiEvent
  /-- opening one of the target files for writing (or starting the PDF build) -/
  | writeAttempt (path : String)
  /-- a completed write of `content` to `path` -/
  | fileWrite (path : String) (content : String)
  /-- `self.log_text_edit.append(message)` -/
  | uiLog (message : String)
  | dialogCritical (title : String)
  | dialogWarning (title : String)
  | dialogInfo (title : String)
deriving DecidableEq

/-- Python `Path(p).stem`: the final component without its suffix. -/
def pyStem (p : String) : String :=
  let name := pathName p
  String.mk (name.take (name.length - (pySuffix p).data.length))

/-- `get_timestamped_filename` from `src/utils/helpers.py`, with the
`datetime.now().strftime(...)` timestamp passed in explicitly. -/
def get_timestamped_filename (base_name extension ts : String) : String :=
  let ext :=
    if extension.data.head? = some '.' then String.mk extension.data.tail
    else extension
  base_name ++ "_" ++ ts ++ "." ++ ext

/-- The `timestamped_base_name` computed in `save_files`:
`get_timestamped_filename(base_name, "")` with its trailing dot
removed. -/
def outputBase (audio_file_path ts : String) : String :=
  let tbn0 := get_timestamped_filename (pyStem audio_file_path) "" ts
  if tbn0.data.getLast? = some '.' then String.mk tbn0.data.dropLast else tbn0

def txtPath (audio_file_path ts : String) : String :=
  "output/" ++ outputBase audio_file_path ts ++ "_transcript.txt"

def mdPath (audio_file_path ts : String) : String :=
  "output/" ++ outputBase audio_file_path ts ++ "_notes.md"

def pdfPath (audio_file_path ts : String) : String :=
  "output/" ++ outputBase audio_file_path ts ++ "_notes.pdf"

/-- Environment of one `save_files` call. -/
structure SaveEnv where
  notes : String
  transcript : String
  /-- the `audio_file_path` argument (always provided by the callers
  modelled here, so the fallback path-selection branches are not taken) -/
  audio_file_path : String
  /-- the `datetime.now()` timestamp used for the output base name -/
  ts : String
  /-- outcome of writing the transcript `.txt` file -/
  writeTxtResult : Except PyExc Unit
  /-- outcome of writing the notes `.md` file -/
  writeMdResult : Except PyExc Unit
  /-- whether `import reportlab` succeeds -/
  reportlabAvailable : Bool
  /-- outcome of building and writing the `.pdf` file -/
  buildPdfResult : Except PyExc Unit
  /-- whether `self.selected_batch_files` is nonempty -/
  isBatch : Bool

/-- `MainWindow.save_files` from `src/ui/main_window.py` as a trace of UI
events.  Each of the three writes is wrapped in its own `try`, but every
failure handler ends with `return`, so a failure aborts the remaining
writes. -/
def MainWindow.save_files (env : SaveEnv) : List UiEvent :=
  let txt_file_path := txtPath env.audio_file_path env.ts
  let md_file_path := mdPath env.audio_file_path env.ts
  let pdf_file_path := pdfPath env.audio_file_path env.ts
  [.writeAttempt txt_file_path] ++
  match env.writeTxtResult with
  | .error e =>
    [.uiLog ("Error saving transcript: " ++ e.str), .dialogCritical "Save Error"]
  | .ok _ =>
    [.fileWrite txt_file_path env.transcript,
     .uiLog ("Transcript saved to " ++ txt_file_path),
     .writeAttempt md_file_path] ++
    match env.writeMdResult with
    | .error e =>
      [.uiLog ("Error saving markdown notes: " ++ e.str),
       .dialogCritical "Save Error"]
    | .ok _ =>
      [.fileWrite md_file_path env.notes,
       .uiLog ("Markdown notes saved to " ++ md_file_path),
       .writeAttempt pdf_file_path] ++
      (if !env.reportlabAvailable then
        [.uiLog "PDF library missing. Cannot save PDF. Install with 'pip install reportlab'",
         .dialogWarning "PDF Library Missing"]
      else
        match env.buildPdfResult with
        | .error e =>
          [.uiLog ("Error saving PDF: " ++ e.str), .dialogCritical "Save Error"]
        | .ok _ =>
          [.fileWrite pdf_file_path env.notes,
           .uiLog ("PDF notes saved to " ++ pdf_file_path)] ++
          (if !env.isBatch then
            [.uiLog ("Successfully processed: " ++ String.mk (pathName env.audio_file_path)),
             .dialogInfo "Success"]
          else
            [.uiLog ("Successfully processed: " ++ String.mk (pathName env.audio_file_path))]))

/-- The write attempts occurring in a trace, in order. -/
def writeAttempts (t : List UiEvent) : List String :=
  t.filterMap (fun e => match e with | .writeAttempt p => some p | _ => none)

/-- **C2 counterexample.** A failing transcript write does prevent the
other two writes: with the `.txt` write failing (disk full) and both
other writes able to succeed, the trace contains exactly one write
attempt — the `.md` and `.pdf` files are never attempted, because the
transcript failure handler ends in `return`. -/
theorem save_files_txt_failure_blocks_others :
    (writeAttempts (MainWindow.save_files
      ⟨"N", "T", "input/meeting.wav", "2024-01-02_03-04-05",
        .error (.osError "disk full"), .ok (), true, .ok (), false⟩)).length = 1
    ∧ UiEvent.writeAttempt (mdPath "input/meeting.wav" "2024-01-02_03-04-05")
        ∉ MainWindow.save_files
          ⟨"N", "T", "input/meeting.wav", "2024-01-02_03-04-05",
            .error (.osError "disk full"), .ok (), true, .ok (), false⟩
    ∧ UiEvent.writeAttempt (pdfPath "input/meeting.wav" "2024-01-02_03-04-05")
        ∉ MainWindow.save_files
          ⟨"N", "T", "input/meeting.wav", "2024-01-02_03-04-05",
            .error (.osError "disk full"), .ok (), true, .ok (), false⟩ := by
  refine ⟨rfl, ?_, ?_⟩ <;> decide

/-- **C2 (amended).** Each write failure in `save_files` is reported
individually (its own log line and dialog), and files already written are
not rolled back — but a failure aborts the remaining writes: a transcript
failure prevents the `.md` and `.pdf` attempts, and an `.md` failure
prevents the `.pdf` attempt; all three files are attempted only when each
preceding write succeeds. -/
theorem save_files_failure_aborts_rest (env : SaveEnv) :
    (∀ e, env.writeTxtResult = .error e →
      MainWindow.save_files env
        = [.writeAttempt (txtPath env.audio_file_path env.ts),
           .uiLog ("Error saving transcript: " ++ e.str),
           .dialogCritical "Save Error"])
    ∧ (∀ e, env.writeTxtResult = .ok () → env.writeMdResult = .error e →
      writeAttempts (MainWindow.save_files env)
        = [txtPath env.audio_file_path env.ts,
           mdPath env.audio_file_path env.ts]
      ∧ UiEvent.fileWrite (txtPath env.audio_file_path env.ts) env.transcript
          ∈ MainWindow.save_files env
      ∧ (MainWindow.save_files env).getLast?
          = some (.dialogCritical "Save Error"))
    ∧ (env.writeTxtResult = .ok () → env.writeMdResult = .ok () →
      writeAttempts (MainWindow.save_files env)
        = [txtPath env.audio_file_path env.ts,
           mdPath env.audio_file_path env.ts,
           pdfPath env.audio_file_path env.ts]) := by
  refine ⟨?_, ?_, ?_⟩
  · intro e h
    simp [MainWindow.save_files, h]
  · intro e h1 h2
    refine ⟨?_, ?_, ?_⟩ <;>
      simp [MainWindow.save_files, writeAttempts, h1, h2]
  · intro h1 h2
    by_cases h3 : env.reportlabAvailable
    · rcases h4 : env.buildPdfResult with e | u
      · simp [MainWindow.save_files, writeAttempts, h1, h2, h3, h4]
      · by_cases h5 : env.isBatch <;>
          simp [MainWindow.save_files, writeAttempts, h1, h2, h3, h4, h5]
    · simp [MainWindow.save_files, writeAttempts, h1, h2, h3]

/-- Witness for amended C2: with a failing `.md` write, the `.txt` and
`.md` targets are attempted (and the transcript stays written); with all
writes succeeding, all three targets are attempted. -/
theorem save_files_failure_aborts_rest_witness :
    writeAttempts (MainWindow.save_files
      ⟨"N", "T", "input/meeting.wav", "2024-01-02_03-04-05",
        .ok (), .error (.osError "disk full"), true, .ok (), false⟩)
      = [txtPath "input/meeting.wav" "2024-01-02_03-04-05",
         mdPath "input/meeting.wav" "2024-01-02_03-04-05"]
    ∧ writeAttempts (MainWindow.save_files
      ⟨"N", "T", "input/meeting.wav", "2024-01-02_03-04-05",
        .ok (), .ok (), true, .ok (), false⟩)
      = [txtPath "input/meeting.wav" "2024-01-02_03-04-05",
         mdPath "input/meeting.wav" "2024-01-02_03-04-05",
         pdfPath "input/meeting.wav" "2024-01-02_03-04-05"] := by
  constructor
  · exact ((save_files_failure_aborts_rest
      ⟨"N", "T", "input/meeting.wav", "2024-01-02_03-04-05",
        .ok (), .error (.osError "disk full"), true, .ok (), false⟩).2.1
      (.osError "disk full") rfl rfl).1
  · exact (save_files_failure_aborts_rest
      ⟨"N", "T", "input/meeting.wav", "2024-01-02_03-04-05",
        .ok (), .ok (), true, .ok (), false⟩).2.2 rfl rfl

/-! ## Batch mode (`process_batch_files` / `process_next_batch_file` /
`batch_generation_finished` in `src/ui/main_window.py`)

The source drives the batch through an index (`batch_processing_index`)
and the worker's `finished` signal: `process_next_batch_file` logs the
"Processing file i/n" line and starts a worker for the current file;
`batch_generation_finished` saves the files (on a result) or logs the
failure line (on `None`), increments the index and recurses.  By C1 the
worker delivers exactly one terminal result per job, so one job's
contribution is modelled by its terminal result plus its write outcomes;
the sequential recursion below is the induced trace. -/

/-- Per-file environment of a batch run: the job's terminal result and
the write outcomes of its `save_files` call. -/
structure BatchJobEnv where
  result : Option JobResult
  ts : String
  writeTxtResult : Except PyExc Unit
  writeMdResult : Except PyExc Unit
  reportlabAvailable : Bool
  buildPdfResult : Except PyExc Unit

/-- The UI events contributed by file number `i` (0-based) of `total`:
the "Processing file" log, then either the `save_files` trace (result
present) or the "Failed to process file" log (result absent).  Batch
`save_files` calls run with `selected_batch_files` nonempty, so their
`isBatch` flag is true. -/
def batchFileEvents (i total : Nat) (f : String) (job : BatchJobEnv) :
    List UiEvent :=
  [.uiLog ("Processing file " ++ toString (i + 1) ++ "/" ++ toString total
    ++ ": " ++ String.mk (pathName f))] ++
  match job.result with
  | some r =>
    MainWindow.save_files ⟨r.notes, r.transcript, f, job.ts,
      job.writeTxtResult, job.writeMdResult, job.reportlabAvailable,
      job.buildPdfResult, true⟩
  | none =>
    [.uiLog ("Failed to process file " ++ toString (i + 1) ++ ": "
      ++ String.mk (pathName f))]

/-- The `process_next_batch_file` / `batch_generation_finished` loop:
file `i` is handled completely (including its file writes) before file
`i+1` starts; when the index passes the end, the completion line is
logged. -/
def processBatch (jobs : Nat → BatchJobEnv) (total : Nat) :
    Nat → List String → List UiEvent
  | _, [] => [.uiLog "Batch processing completed!"]
  | i, f :: rest =>
    batchFileEvents i total f (jobs i) ++ processBatch jobs total (i + 1) rest

/-- `MainWindow.process_batch_files`: run the whole selected list from
index 0. -/
def MainWindow.process_batch_files (jobs : Nat → BatchJobEnv)
    (files : List String) : List UiEvent :=
  processBatch jobs files.length 0 files

/-- The completed `fileWrite` events of a trace, as (path, content)
pairs. -/
def fileWrites (t : List UiEvent) : List (String × String) :=
  t.filterMap (fun e => match e with | .fileWrite p c => some (p, c) | _ => none)

theorem processBatch_eq_flatMap (jobs : Nat → BatchJobEnv) (total : Nat)
    (l : List String) (i : Nat) :
    processBatch jobs total i l
      = ((l.enumFrom i).flatMap
          (fun p => batchFileEvents p.1 total p.2 (jobs p.1)))
        ++ [.uiLog "Batch processing completed!"] := by
  induction l generalizing i with
  | nil => simp [processBatch]
  | cons f rest ih =>
    simp [processBatch, List.enumFrom_cons, List.flatMap_cons, ih (i + 1),
      List.append_assoc]

/-- **C6.** Batch mode is strictly sequential and fault-tolerant: the
whole trace is the concatenation, in list order, of each file's complete
contribution (its "Processing file" log followed by its `save_files`
events or failure log) — so file `N+1`'s events, including its writes,
come only after file `N`'s; a failed job contributes exactly its
processing log and one failure log line; and the batch completion line
is always the final event. -/
theorem batch_sequential_fault_tolerant (jobs : Nat → BatchJobEnv)
    (files : List String) :
    MainWindow.process_batch_files jobs files
      = (files.enum.flatMap
          (fun p => batchFileEvents p.1 files.length p.2 (jobs p.1)))
        ++ [.uiLog "Batch processing completed!"]
    ∧ (∀ (i total : Nat) (f : String), (jobs i).result = none →
        batchFileEvents i total f (jobs i)
          = [.uiLog ("Processing file " ++ toString (i + 1) ++ "/"
              ++ toString total ++ ": " ++ String.mk (pathName f)),
             .uiLog ("Failed to process file " ++ toString (i + 1) ++ ": "
              ++ String.mk (pathName f))])
    ∧ (MainWindow.process_batch_files jobs files).getLast?
        = some (.uiLog "Batch processing completed!") := by
  refine ⟨processBatch_eq_flatMap jobs files.length files 0, ?_, ?_⟩
  · intro i total f h
    simp [batchFileEvents, h]
  · rw [MainWindow.process_batch_files,
      processBatch_eq_flatMap jobs files.length files 0,
      List.getLast?_append]
    rfl

/-- Witness for C6, the spec's batch scenario: three files where job 2
(index 1) fails — jobs 1 and 3 still write their three output files
each, job 2 contributes only its log lines, and completion is still
signalled last. -/
theorem batch_sequential_fault_tolerant_witness :
    (batchFileEvents 1 3 "b.mp3"
        ((fun i => if i = 1 then
            (⟨none, "TS", .ok (), .ok (), true, .ok ()⟩ : BatchJobEnv)
          else
            ⟨some ⟨"notes" ++ toString i, "transcript" ++ toString i⟩, "TS",
              .ok (), .ok (), true, .ok ()⟩) 1)
      = [.uiLog "Processing file 2/3: b.mp3",
         .uiLog "Failed to process file 2: b.mp3"])
    ∧ fileWrites (MainWindow.process_batch_files
        (fun i => if i = 1 then
            ⟨none, "TS", .ok (), .ok (), true, .ok ()⟩
          else
            ⟨some ⟨"notes" ++ toString i, "transcript" ++ toString i⟩, "TS",
              .ok (), .ok (), true, .ok ()⟩)
        ["a.mp3", "b.mp3", "c.mp3"])
      = [("output/a_TS_transcript.txt", "transcript0"),
         ("output/a_TS_notes.md", "notes0"),
         ("output/a_TS_notes.pdf", "notes0"),
         ("output/c_TS_transcript.txt", "transcript2"),
         ("output/c_TS_notes.md", "notes2"),
         ("output/c_TS_notes.pdf", "notes2")]
    ∧ (MainWindow.process_batch_files
        (fun i => if i = 1 then
            ⟨none, "TS", .ok (), .ok (), true, .ok ()⟩
          else
            ⟨some ⟨"notes" ++ toString i, "transcript" ++ toString i⟩, "TS",
              .ok (), .ok (), true, .ok ()⟩)
        ["a.mp3", "b.mp3", "c.mp3"]).getLast?
      = some (.uiLog "Batch processing completed!") := by
  refine ⟨?_, by decide, ?_⟩
  · exact (batch_sequential_fault_tolerant
      (fun i => if i = 1 then
          ⟨none, "TS", .ok (), .ok (), true, .ok ()⟩
        else
          ⟨some ⟨"notes" ++ toString i, "transcript" ++ toString i⟩, "TS",
            .ok (), .ok (), true, .ok ()⟩)
      ["a.mp3", "b.mp3", "c.mp3"]).2.1 1 3 "b.mp3" rfl
  · exact (batch_sequential_fault_tolerant
      (fun i => if i = 1 then
          ⟨none, "TS", .ok (), .ok (), true, .ok ()⟩
        else
          ⟨some ⟨"notes" ++ toString i, "transcript" ++ toString i⟩, "TS",
            .ok (), .ok (), true, .ok ()⟩)
      ["a.mp3", "b.mp3", "c.mp3"]).2.2

end MeetingNotes
